import Mathlib

/-!
Verification of the AI code-assistant editor extension.

The development embeds, as executable Lean definitions, the parts of the
source that the verified properties talk about:

* `CommentCompletionProvider.provideCompletionItems` (comment-trigger
  detector) — `commentCompletionItems`;
* `InlineCompletionProvider.cleanCompletion` — `cleanCompletion`;
* `InlineCompletionProvider.generateCompletion` and
  `provideInlineCompletionItems` (inline-completion pipeline, its cache and
  debounce) — `generateCompletion`, `provideInline`, `cacheStore`, `debRun`;
* `AIProviderService.initializeClients`, `generateResponse` and the
  per-provider adapters (credential checks) — `rebuildClients`,
  `generateResponse`;
* `AIProviderService.generateReplicateResponse` (polling loop) —
  `generateReplicateResult`.

JavaScript strings are modelled as `List Char` (`JStr`); JavaScript string
operations (`trim`, `toLowerCase`, `includes`, `startsWith`, `substring`,
`slice`, `split`, `join`, regex matching as used by the source) are given
explicit executable models below.
-/

/-- Model of a JavaScript string: a list of characters. -/
abbrev JStr := List Char

/-- JS `String.prototype.trimEnd` (also the trailing half of `trim`). -/
def jsTrimEnd (s : JStr) : JStr :=
  (s.reverse.dropWhile Char.isWhitespace).reverse

/-- JS `String.prototype.trim`: drop leading and trailing whitespace. -/
def jsTrim (s : JStr) : JStr :=
  jsTrimEnd (s.dropWhile Char.isWhitespace)

/-- JS `String.prototype.toLowerCase` (ASCII, as exercised by the source). -/
def jsToLower (s : JStr) : JStr := s.map Char.toLower

/-- JS `String.prototype.includes`: substring containment. -/
def hasSubstr : JStr → JStr → Bool
  | [], pat => pat.isEmpty
  | c :: t, pat => pat.isPrefixOf (c :: t) || hasSubstr t pat

/-- JS `s.slice (-n)`: the last `n` characters (all of `s` if shorter). -/
def takeLast (n : Nat) (s : JStr) : JStr := s.drop (s.length - n)

/-- JS `\w` character class: `[A-Za-z0-9_]`. -/
def isWordChar (c : Char) : Bool := c.isAlphanum || c = '_'

/-- Does the string end in a `\w` character (JS `linePrefix.match (/\w$/)`)? -/
def endsWithWord (s : JStr) : Bool :=
  match s.getLast? with
  | some c => isWordChar c
  | none => false

/-- Does the string start with a `\w` character (JS `lineSuffix.match (/^\w/)`)? -/
def startsWithWord (s : JStr) : Bool :=
  match s.head? with
  | some c => isWordChar c
  | none => false

/-! ## Comment-trigger detector (`CommentCompletionProvider`) -/

/-- Per-language trailing-comment regex, from `triggerPatterns` in the source:
a line-comment opener (`//` or `#`) or an end-anchored block comment
(`/* ... */` for css, `<!-- ... -->` for html). -/
inductive TriggerPattern where
  | line (opener : JStr)
  | block (opener closer : JStr)
deriving DecidableEq

/-- The `triggerPatterns` map of `CommentCompletionProvider`: which languages
have which comment pattern; unknown languages have none. -/
def triggerPatterns (language : JStr) : Option TriggerPattern :=
  if language = ("javascript").data ∨ language = ("typescript").data ∨
     language = ("java").data ∨ language = ("csharp").data ∨
     language = ("cpp").data ∨ language = ("c").data ∨
     language = ("go").data ∨ language = ("rust").data ∨
     language = ("php").data then
    some (.line ("//").data)
  else if language = ("python").data ∨ language = ("ruby").data then
    some (.line ("#").data)
  else if language = ("html").data then
    some (.block ("<!--").data ("-->").data)
  else if language = ("css").data then
    some (.block ("/*").data ("*/").data)
  else
    none

/-- The capture of `\s*(.+)$` applied to the text `rest` following a comment
opener (`rest` nonempty): the greedy `\s*` skips leading whitespace and `(.+)`
takes the remainder; when `rest` is all whitespace, backtracking leaves the
last character for `(.+)`. -/
def captureFrom (rest : JStr) : JStr :=
  let stripped := rest.dropWhile Char.isWhitespace
  if stripped.isEmpty then rest.drop (rest.length - 1) else stripped

/-- JS `lineText.match` for a line-comment pattern such as `/\/\/\s*(.+)$/`:
find the first occurrence of the opener followed by at least one character and
return the capture group. -/
def lineCommentMatch (opener : JStr) : JStr → Option JStr
  | [] => none
  | c :: t =>
    if opener.isPrefixOf (c :: t) then
      let rest := (c :: t).drop opener.length
      if rest.isEmpty then lineCommentMatch opener t else some (captureFrom rest)
    else lineCommentMatch opener t

/-- JS `lineText.match` for an end-anchored block-comment pattern such as
`/\/\*\s*(.+)\s*\*\/$/`: the line must end with the closer, and the capture is
the (nonempty) text between the first opener occurrence and the final closer,
with leading whitespace skipped by the greedy `\s*`. -/
def blockCommentMatch (opener closer : JStr) : JStr → Option JStr
  | [] => none
  | c :: t =>
    if opener.isPrefixOf (c :: t) then
      let rest := (c :: t).drop opener.length
      let mid := rest.take (rest.length - closer.length)
      if closer.isSuffixOf rest ∧ closer.length < rest.length then
        some (captureFrom mid)
      else blockCommentMatch opener closer t
    else blockCommentMatch opener closer t

/-- The `codeGenKeywords` list of `provideCompletionItems`. -/
def codeGenKeywords : List JStr :=
  [("function").data, ("class").data, ("method").data, ("create").data,
   ("generate").data, ("implement").data, ("TODO").data, ("FIXME").data,
   ("NOTE").data, ("BUG").data, ("HACK").data, ("XXX").data,
   ("algorithm").data, ("loop").data, ("condition").data, ("check").data,
   ("validate").data, ("parse").data, ("format").data, ("calculate").data,
   ("compute").data, ("process").data, ("handle").data, ("manage").data,
   ("sort").data]

/-- Embeds `CommentCompletionProvider.provideCompletionItems`: match the
language's comment pattern against the line, require the trimmed comment body
to have length at least 3 and to contain a code-generation keyword
case-insensitively, and return the offered completion-item labels. -/
def commentCompletionItems (language lineText : JStr) : List JStr :=
  match triggerPatterns language with
  | none => []
  | some pat =>
    let captured :=
      match pat with
      | .line opener => lineCommentMatch opener lineText
      | .block opener closer => blockCommentMatch opener closer lineText
    match captured with
    | none => []
    | some cap =>
      let comment := jsTrim cap
      if comment.length < 3 then []
      else if codeGenKeywords.any
          (fun kw => hasSubstr (jsToLower comment) (jsToLower kw)) then
        [("Generate code from comment").data]
      else []

/-! ## Inline-completion post-processing (`cleanCompletion`) -/

/-- Split at the first occurrence of `pat` (nonempty): the text before it and
the text after it, or `none` when `pat` does not occur. -/
def breakOnList (pat : JStr) : JStr → Option (JStr × JStr)
  | [] => none
  | c :: t =>
    if pat.isPrefixOf (c :: t) then some ([], (c :: t).drop pat.length)
    else
      match breakOnList pat t with
      | some (pre, post) => some (c :: pre, post)
      | none => none

/-- A fenced code-block delimiter. -/
def fence : JStr := ("```").data

/-- Fuel-indexed scan implementing the two fence replacements of
`cleanCompletion`: the global lazy regex replace deletes each matched pair of
fences with the text between them, and the following global fence replace
deletes the one unpaired fence that can remain. The fuel only needs to reach
the input length. -/
def stripFencesF : Nat → JStr → JStr
  | 0, s => s
  | fuel + 1, s =>
    match s with
    | [] => []
    | c :: t =>
      if fence.isPrefixOf (c :: t) then
        let rest := (c :: t).drop fence.length
        match breakOnList fence rest with
        | some (_, post) => stripFencesF fuel post
        | none => rest
      else c :: stripFencesF fuel t

/-- The fence-removal step of `cleanCompletion` (both `replace` calls). -/
def stripFences (s : JStr) : JStr := stripFencesF s.length s

/-- JS `String.prototype.split` on a single character. -/
def splitOnChar (sep : Char) : JStr → List JStr
  | [] => [[]]
  | c :: t =>
    if c = sep then [] :: splitOnChar sep t
    else
      match splitOnChar sep t with
      | h :: r => (c :: h) :: r
      | [] => [[c]]

/-- The newline character that `cleanCompletion` splits and joins on. -/
def newlineChar : Char := '\n'

/-- The explanation-comment filter of `cleanCompletion`: a line is skipped
when its trimmed form starts with `//`, `#` or `/*` and the lowercased line
contains the literal word `explanation`. -/
def isExplanationLine (l : JStr) : Bool :=
  let t := jsTrim l
  let low := jsToLower l
  (("//").data.isPrefixOf t && hasSubstr low ("explanation").data) ||
  (("#").data.isPrefixOf t && hasSubstr low ("explanation").data) ||
  (("/*").data.isPrefixOf t && hasSubstr low ("explanation").data)

/-- Embeds `InlineCompletionProvider.cleanCompletion`: remove fenced
code-block delimiters, drop explanation-comment lines, trim trailing
whitespace, strip a repeated echo of the trimmed line prefix, and return the
empty string when nothing of substance remains. -/
def cleanCompletion (completion linePrefix : JStr) : JStr :=
  let c1 := stripFences completion
  let codeLines := (splitOnChar newlineChar c1).filter (fun l => !isExplanationLine l)
  let c2 := List.intercalate [newlineChar] codeLines
  let c3 := jsTrimEnd c2
  let linePrefixTrimmed := jsTrim linePrefix
  let c4 :=
    if !linePrefixTrimmed.isEmpty && linePrefixTrimmed.isPrefixOf (jsTrim c3) then
      (jsTrim c3).drop linePrefixTrimmed.length
    else c3
  if (jsTrim c4).isEmpty then [] else c4

/-! ## Inline-completion pipeline (`InlineCompletionProvider`) -/

/-- The completion cache, a JS `Map` in the source: an insertion-ordered
association list with (at most) unique keys. -/
abbrev CompletionCache := List (JStr × JStr)

/-- JS `Map.prototype.get` (and, via `isSome`, `Map.prototype.has`). -/
def cacheGet (k : JStr) (c : CompletionCache) : Option JStr :=
  (c.find? (fun p => decide (p.1 = k))).map (fun p => p.2)

/-- JS `Map.prototype.set`: update the value in place when the key is
present (keeping its insertion position), otherwise append a new entry. -/
def mapSet (k v : JStr) (c : CompletionCache) : CompletionCache :=
  if c.any (fun p => decide (p.1 = k)) then
    c.map (fun p => if p.1 = k then (k, v) else p)
  else c ++ [(k, v)]

/-- The size-limit step of `generateCompletion`: when the cache holds more
than 100 entries, delete the entry under the first (oldest-inserted) key. -/
def cacheLimit (c : CompletionCache) : CompletionCache :=
  if c.length > 100 then
    match c.head? with
    | some p => c.eraseP (fun q => decide (q.1 = p.1))
    | none => c
  else c

/-- The cache-store step of `generateCompletion`: `set` followed by the
size-limit eviction. -/
def cacheStore (k v : JStr) (c : CompletionCache) : CompletionCache :=
  cacheLimit (mapSet k v c)

/-- The document-derived inputs of one inline-completion request: the language
id, the current line split at the cursor, and the bounded before/after
context already extracted from the document. -/
structure CompletionInput where
  languageId : JStr
  linePrefix : JStr
  lineSuffix : JStr
  contextBefore : JStr
  contextAfter : JStr
deriving DecidableEq

/-- The cache fingerprint of `generateCompletion`: language id, a colon, and
the last 500 characters of the preceding context. -/
def cacheKeyOf (inp : CompletionInput) : JStr :=
  inp.languageId ++ (":").data ++ takeLast 500 inp.contextBefore

/-- Embeds `buildCompletionPrompt`: the structured prompt template. -/
def buildCompletionPrompt (language contextBefore contextAfter linePrefix lineSuffix : JStr) : JStr :=
  ("Complete the following ").data ++ language ++
  (" code. Only provide the completion, no explanations or additional text.\n\nContext before:\n").data ++
  contextBefore ++
  ("\n\nContext after:\n").data ++ contextAfter ++
  ("\n\nComplete this line: ").data ++ linePrefix ++ ("|").data ++ lineSuffix ++
  ("\n\nCompletion:").data

/-- Outcome of one `generateCompletion` call: the returned value (`none`
models the JS `null`), the cache after the call, and how many generation
calls (`aiService.generateResponse`) were issued. -/
structure CompletionOutcome where
  result : Option JStr
  cache : CompletionCache
  genCalls : Nat
deriving DecidableEq

/-- Embeds `InlineCompletionProvider.generateCompletion`.

`gen` models `aiService.generateResponse` (`none` models a thrown error,
which the source catches and turns into a `null` return). `cancelBeforeGen`
is the value of `token.isCancellationRequested` at the check that precedes
the generation call; cancellation that arrives later is observed only by the
caller (`provideInline`). The branch order follows the source: mid-word
skip, cache probe, empty-line skip, cancellation check, generation,
cleaning, cache store with eviction. -/
def generateCompletion (gen : JStr → Option JStr) (cancelBeforeGen : Bool)
    (inp : CompletionInput) (cache : CompletionCache) : CompletionOutcome :=
  if endsWithWord inp.linePrefix && startsWithWord inp.lineSuffix then
    ⟨none, cache, 0⟩
  else
    match cacheGet (cacheKeyOf inp) cache with
    | some v => ⟨some v, cache, 0⟩
    | none =>
      if (jsTrim inp.linePrefix).isEmpty && (jsTrim inp.lineSuffix).isEmpty then
        ⟨none, cache, 0⟩
      else if cancelBeforeGen then
        ⟨none, cache, 0⟩
      else
        match gen (buildCompletionPrompt inp.languageId inp.contextBefore
            inp.contextAfter inp.linePrefix inp.lineSuffix) with
        | none => ⟨none, cache, 1⟩
        | some completion =>
          if !completion.isEmpty && !(jsTrim completion).isEmpty then
            let cleaned := cleanCompletion completion inp.linePrefix
            ⟨some cleaned, cacheStore (cacheKeyOf inp) cleaned cache, 1⟩
          else ⟨none, cache, 1⟩

/-- Outcome of one `provideInlineCompletionItems` call after the debounce
timer fired: the emitted suggestions, the cache, and the generation calls. -/
structure ProvideOutcome where
  items : List JStr
  cache : CompletionCache
  genCalls : Nat
deriving DecidableEq

/-- Embeds the body of `provideInlineCompletionItems` that runs when the
debounce timer fires: call `generateCompletion` and emit the result as a
single suggestion only when it is a nonempty string and
`token.isCancellationRequested` is still false (`cancelAfterGen` is the value
of that flag at this final check); the feature-toggle short-circuit precedes
everything. -/
def provideInline (gen : JStr → Option JStr) (cancelBeforeGen cancelAfterGen : Bool)
    (enable : Bool) (inp : CompletionInput) (cache : CompletionCache) : ProvideOutcome :=
  if !enable then ⟨[], cache, 0⟩
  else
    let o := generateCompletion gen cancelBeforeGen inp cache
    match o.result with
    | some s => if !s.isEmpty && !cancelAfterGen then ⟨[s], o.cache, o.genCalls⟩
                else ⟨[], o.cache, o.genCalls⟩
    | none => ⟨[], o.cache, o.genCalls⟩

/-! ## Provider service (`AIProviderService`) -/

/-- The configuration keys that `AIProviderService` reads. A `none` key
models a missing or empty (falsy) configuration value. -/
structure ServiceConfig where
  provider : String
  groqApiKey : Option String
  hfApiKey : Option String
  perplexityApiKey : Option String
  togetheraiApiKey : Option String
  replicateApiKey : Option String
deriving DecidableEq

/-- The lazily built vendor client handles held by the service; each records
the key it was constructed with. -/
structure ClientState where
  groqClient : Option String
  hfClient : Option String
deriving DecidableEq

/-- The client state at construction, before `initializeClients` runs. -/
def initialClientState : ClientState := ⟨none, none⟩

/-- Embeds `AIProviderService.initializeClients` (run at construction and on
every configuration change): build a client for each provider whose key is
configured; a provider whose key is absent keeps its previous client. -/
def rebuildClients (cfg : ServiceConfig) (s : ClientState) : ClientState :=
  let s1 :=
    match cfg.groqApiKey with
    | some k => { s with groqClient := some k }
    | none => s
  match cfg.hfApiKey with
  | some k => { s1 with hfClient := some k }
  | none => s1

/-- What a provider adapter does before and at its first network request:
either it throws (`error`) before any request is issued, or it issues one. -/
inductive AdapterOutcome where
  | error (msg : String)
  | network
deriving DecidableEq

/-- Embeds the credential check of `generateGroqResponse`: throw when no
client handle was ever built. -/
def generateGroqResponse (s : ClientState) : AdapterOutcome :=
  match s.groqClient with
  | none => .error "Groq API key not configured"
  | some _ => .network

/-- Embeds the credential check of `generatePerplexityResponse`: the key is
read from configuration on every call. -/
def generatePerplexityResponse (cfg : ServiceConfig) : AdapterOutcome :=
  match cfg.perplexityApiKey with
  | none => .error "Perplexity API key not configured"
  | some _ => .network

/-- Embeds the credential check of `generateHuggingFaceResponse`: throw when
no client handle was ever built. -/
def generateHuggingFaceResponse (s : ClientState) : AdapterOutcome :=
  match s.hfClient with
  | none => .error "HuggingFace API key not configured"
  | some _ => .network

/-- Embeds `generateOllamaResponse`: no credential is required; the call goes
straight to the network. -/
def generateOllamaResponse (_cfg : ServiceConfig) : AdapterOutcome := .network

/-- Embeds the credential check of `generateTogetherAIResponse`. -/
def generateTogetherAIResponse (cfg : ServiceConfig) : AdapterOutcome :=
  match cfg.togetheraiApiKey with
  | none => .error "Together AI API key not configured"
  | some _ => .network

/-- Embeds the credential check of `generateReplicateResponse` (the creation
request that follows it is the first network request of that adapter). -/
def generateReplicateCredential (cfg : ServiceConfig) : AdapterOutcome :=
  match cfg.replicateApiKey with
  | none => .error "Replicate API key not configured"
  | some _ => .network

/-- Embeds the dispatch of `AIProviderService.generateResponse` at the
credential/network level: select the adapter by the configured provider
string; an unknown provider throws before any request. -/
def generateResponse (cfg : ServiceConfig) (s : ClientState) : AdapterOutcome :=
  if cfg.provider = "groq" then generateGroqResponse s
  else if cfg.provider = "perplexity" then generatePerplexityResponse cfg
  else if cfg.provider = "huggingface" then generateHuggingFaceResponse s
  else if cfg.provider = "ollama" then generateOllamaResponse cfg
  else if cfg.provider = "togetherai" then generateTogetherAIResponse cfg
  else if cfg.provider = "replicate" then generateReplicateCredential cfg
  else .error ("Unsupported provider: " ++ cfg.provider)

/-! ## Replicate polling loop (`generateReplicateResponse`) -/

/-- One response of the Replicate status endpoint: the reported status string
and the optional array of output fragments. -/
structure PollResponse where
  status : String
  output : Option (List String)
deriving DecidableEq

/-- JS `statusResponse.data.output?.join(empty) || empty`: join the fragments;
an absent array yields the empty string. -/
def jsJoinOr (o : Option (List String)) : String :=
  match o with
  | none => ""
  | some l => String.join l

/-- JS truthiness of the `result` variable of the polling loop: `null` and
the empty string are falsy. -/
def jsTruthyStr (r : Option String) : Bool :=
  match r with
  | none => false
  | some s => !(s = "")

/-- The polling loop of `generateReplicateResponse`, fuel-indexed: the fuel
starts at the attempt cap (30) and `attempts` at 0, so `fuel = 30 - attempts`
and the loop guard `attempts < maxAttempts` is exactly `fuel > 0`. `backend`
maps the zero-based attempt counter to the status response of that check; a
`failed` status throws, a `succeeded` status stores the joined output (which,
when empty, is falsy and keeps the loop running). Returns the final `result`
with the number of status checks performed. -/
def replicatePollAux (backend : Nat → PollResponse) :
    Nat → Option String → Nat → Except String (Option String × Nat)
  | 0, result, attempts => .ok (result, attempts)
  | fuel + 1, result, attempts =>
    if jsTruthyStr result then .ok (result, attempts)
    else
      let r := backend attempts
      if r.status = "succeeded" then
        replicatePollAux backend fuel (some (jsJoinOr r.output)) (attempts + 1)
      else if r.status = "failed" then .error "Replicate prediction failed"
      else replicatePollAux backend fuel result (attempts + 1)

/-- Embeds the body of `generateReplicateResponse` after the creation
request: run the polling loop from a `null` result and 0 attempts with cap
30, and return `result || empty-string` together with the number of status
checks performed (`.error` models the thrown failure). -/
def generateReplicateResult (backend : Nat → PollResponse) : Except String (String × Nat) :=
  match replicatePollAux backend 30 none 0 with
  | .error e => .error e
  | .ok (r, n) => .ok ((match r with | none => "" | some s => s), n)

/-! ## Debounce (`provideInlineCompletionItems`) -/

/-- Events of one editor session at the debounce layer: a completion trigger
(tagged with an id) restarts the single shared 300 ms timer; `fire` is the
expiry of the live timer, which runs the pending work. -/
inductive DebEvent where
  | trigger (id : Nat)
  | fire
deriving DecidableEq

/-- Debounce state: the trigger owning the live timer, if any, and the list
of triggers whose work actually ran (each such run is the only place a
generation call can be issued), in order. -/
structure DebState where
  pending : Option Nat
  fired : List Nat
deriving DecidableEq

/-- The debounce state of a fresh `InlineCompletionProvider`. -/
def debInit : DebState := ⟨none, []⟩

/-- Embeds the debounce logic of `provideInlineCompletionItems`: a new
trigger clears any live timer (`clearTimeout`) and installs its own
(`setTimeout`), so the superseded trigger can never fire; timer expiry runs
the pending work exactly once. -/
def debStep (s : DebState) : DebEvent → DebState
  | .trigger i => { s with pending := some i }
  | .fire =>
    match s.pending with
    | some i => ⟨none, s.fired ++ [i]⟩
    | none => s

/-- Run a sequence of debounce-layer events. -/
def debRun (s : DebState) (evs : List DebEvent) : DebState :=
  evs.foldl debStep s

/-! ## Helper lemmas -/

/-- A string whose JS `trim` is empty consists of whitespace only. -/
lemma all_whitespace_of_jsTrim_nil {s : JStr} (h : jsTrim s = []) :
    ∀ c ∈ s, c.isWhitespace := by
  have h1 : (s.dropWhile Char.isWhitespace).reverse.dropWhile Char.isWhitespace = [] := by
    simpa [jsTrim, jsTrimEnd, List.reverse_eq_nil_iff] using h
  have h2 : ∀ c ∈ s.dropWhile Char.isWhitespace, c.isWhitespace := by
    intro c hc
    exact List.dropWhile_eq_nil_iff.mp h1 c (List.mem_reverse.mpr hc)
  intro c hc
  rw [← List.takeWhile_append_dropWhile (p := Char.isWhitespace) (l := s)] at hc
  rcases List.mem_append.mp hc with h3 | h3
  · exact List.mem_takeWhile_imp h3
  · exact h2 c h3

/-- Whitespace characters are not `\w` characters. -/
lemma isWordChar_eq_false_of_isWhitespace {c : Char} (h : c.isWhitespace) :
    isWordChar c = false := by
  have h4 : ((c = ' ' ∨ c = '\t') ∨ c = '\r') ∨ c = '\n' := by
    simpa [Char.isWhitespace] using h
  rcases h4 with ((h | h) | h) | h <;> subst h <;> decide

/-- A whitespace-only string does not end in a `\w` character. -/
lemma endsWithWord_eq_false_of_jsTrim_nil {s : JStr} (h : jsTrim s = []) :
    endsWithWord s = false := by
  unfold endsWithWord
  cases hl : s.getLast? with
  | none => rfl
  | some c =>
    exact isWordChar_eq_false_of_isWhitespace
      (all_whitespace_of_jsTrim_nil h c (List.mem_of_getLast?_eq_some hl))

/-! ## Claim C1: comment-trigger detector on keyword lines -/

/-- C1 (counterexample): the claim states that for `// just a note` no
suggestion is offered, but the detector offers one: the keyword `NOTE` is
matched case-insensitively as a substring of `just a note`. -/
theorem commentDetector_justANote_fires :
    commentCompletionItems ("javascript").data ("// just a note").data =
      [("Generate code from comment").data] := by decide

/-- C1 (amended): in a language mapped to `//` comments, the line
`// create a function to validate email addresses` yields exactly one
actionable suggestion; `// just a note` also yields exactly one suggestion,
because `note` matches the keyword `NOTE` case-insensitively; a line whose
comment body contains no keyword, such as `// just a remark`, yields none. -/
theorem commentDetector_keyword_behaviour :
    (commentCompletionItems ("javascript").data
        ("// create a function to validate email addresses").data).length = 1 ∧
    (commentCompletionItems ("javascript").data ("// just a note").data).length = 1 ∧
    commentCompletionItems ("javascript").data ("// just a remark").data = [] :=
  ⟨by decide, by decide, by decide⟩

/-! ## Claim C2: post-processing of an echoed line prefix -/

/-- C2 (counterexample): the claim states the cleaned result of raw output
`const x = 5;` against line prefix `const x = ` is exactly `5;`; it is not. -/
theorem cleanCompletion_echo_neq_claim :
    cleanCompletion ("const x = 5;").data ("const x = ").data ≠ ("5;").data := by decide

/-- C2 (amended): the cleaned result is the three-character string `space 5 ;`
— the echo stripping removes only the trimmed prefix `const x =`, so the
space that followed `=` in the raw output survives. -/
theorem cleanCompletion_echo_result :
    cleanCompletion ("const x = 5;").data ("const x = ").data = (" 5;").data := by decide

/-! ## Claim C3: cancellation of an in-flight request -/

/-- C3 (counterexample): a request whose cancellation arrives while the
generation call is in flight (cancellation is observed false at the
pre-generation check and true at the display check) emits no suggestion but
still writes the generated result to the completion cache, contradicting the
claim that the result is neither cached nor displayed. -/
theorem cancelledRequest_writes_cache :
    (provideInline (fun _ => some ("5;").data) false true true
        ⟨("typescript").data, ("const x = ").data, [], ("const x = ").data, []⟩ []).items = [] ∧
    (provideInline (fun _ => some ("5;").data) false true true
        ⟨("typescript").data, ("const x = ").data, [], ("const x = ").data, []⟩ []).cache =
      [(("typescript:const x = ").data, ("5;").data)] :=
  ⟨by decide, by decide⟩

/-- C3 (amended): a request whose cancellation is observed at the final
display check is never emitted as a suggestion, and a request whose
cancellation is already observed at the pre-generation check issues no
generation call and leaves the cache unchanged; but a cancellation that
arrives between the two checks does not prevent the cache write. -/
theorem cancellation_suppresses_display_only :
    (∀ (gen : JStr → Option JStr) (cb : Bool) (inp : CompletionInput) (cache : CompletionCache),
      (provideInline gen cb true true inp cache).items = []) ∧
    (∀ (gen : JStr → Option JStr) (inp : CompletionInput) (cache : CompletionCache),
      (generateCompletion gen true inp cache).cache = cache ∧
      (generateCompletion gen true inp cache).genCalls = 0) := by
  constructor
  · intro gen cb inp cache
    simp only [provideInline, Bool.not_true]
    rcases h : (generateCompletion gen cb inp cache).result with _ | s <;>
      simp [h]
  · intro gen inp cache
    simp only [generateCompletion]
    split
    · exact ⟨rfl, rfl⟩
    · split
      · exact ⟨rfl, rfl⟩
      · split
        · exact ⟨rfl, rfl⟩
        · split
          · exact ⟨rfl, rfl⟩
          · next h => exact absurd trivial h

/-! ## Claim C4: blank-line requests -/

/-- C4 (counterexample): with both sides of the cursor whitespace-only, a
cached fingerprint still produces a suggestion, because the cache probe runs
before the empty-line check — contradicting the claim that nothing is
returned regardless of cache contents. -/
theorem blankLine_cacheHit_suggests :
    (provideInline (fun _ => none) false false true
        ⟨("typescript").data, ("  ").data, (" ").data, ("ctx").data, []⟩
        [(("typescript:ctx").data, ("cached").data)]).items = [("cached").data] := by
  decide

/-- C4 (amended): when the text before and after the cursor on the current
line are both empty or whitespace-only, no generation call is issued and the
cache is unchanged; the request yields no result on a cache miss, but a
fingerprint hit still returns the cached completion. -/
theorem blankLine_skips_generation (gen : JStr → Option JStr) (cb : Bool)
    (inp : CompletionInput) (cache : CompletionCache)
    (hp : jsTrim inp.linePrefix = []) (hs : jsTrim inp.lineSuffix = []) :
    (generateCompletion gen cb inp cache).genCalls = 0 ∧
    (generateCompletion gen cb inp cache).cache = cache ∧
    (cacheGet (cacheKeyOf inp) cache = none →
      (generateCompletion gen cb inp cache).result = none) := by
  simp only [generateCompletion, endsWithWord_eq_false_of_jsTrim_nil hp,
    Bool.false_and, Bool.false_eq_true, if_false]
  rcases h : cacheGet (cacheKeyOf inp) cache with _ | v <;>
    simp [h, hp, hs]

/-- C4 (witness): a concrete blank-line request on an empty cache issues no
generation call and yields no suggestion. -/
theorem blankLine_skips_generation_witness :
    (generateCompletion (fun _ => some ("x").data) false
        ⟨("typescript").data, ("  ").data, [], ("abc").data, []⟩ []).genCalls = 0 ∧
    (generateCompletion (fun _ => some ("x").data) false
        ⟨("typescript").data, ("  ").data, [], ("abc").data, []⟩ []).result = none :=
  have h := blankLine_skips_generation (fun _ => some ("x").data) false
      ⟨("typescript").data, ("  ").data, [], ("abc").data, []⟩ [] (by decide) (by decide)
  ⟨h.1, h.2.2 (by decide)⟩

/-! ## Claim C7: cache capacity bound -/

/-- Bounding step: a cache of at most 101 entries is at most 100 after the
size-limit eviction. -/
lemma cacheLimit_length_le {c : CompletionCache} (h : c.length ≤ 101) :
    (cacheLimit c).length ≤ 100 := by
  unfold cacheLimit
  split
  · next hgt =>
    rcases c with _ | ⟨hd, tl⟩
    · simp at hgt
    · simp only [List.head?_cons]
      rw [List.eraseP_cons_of_pos (by simp)]
      simp at h ⊢
      omega
  · next hng => omega

/-- C7: inserting a 101st distinct fingerprint into a full cache evicts
exactly the oldest-inserted entry (the head of the insertion order), appends
the new entry, and leaves exactly 100 entries; and any completed insertion
into a cache of at most 100 entries leaves at most 100 entries. -/
theorem completionCache_bound :
    (∀ (c : CompletionCache) (k v : JStr), c.length = 100 →
      c.any (fun p => decide (p.1 = k)) = false →
      cacheStore k v c = c.tail ++ [(k, v)] ∧ (cacheStore k v c).length = 100) ∧
    (∀ (c : CompletionCache) (k v : JStr), c.length ≤ 100 →
      (cacheStore k v c).length ≤ 100) := by
  constructor
  · intro c k v hlen hfresh
    have hmap : mapSet k v c = c ++ [(k, v)] := by
      unfold mapSet
      simp [hfresh]
    have hmain : cacheStore k v c = c.tail ++ [(k, v)] := by
      unfold cacheStore
      rw [hmap]
      rcases c with _ | ⟨hd, tl⟩
      · simp at hlen
      · unfold cacheLimit
        rw [if_pos]
        · simp only [List.cons_append, List.head?_cons]
          rw [List.eraseP_cons_of_pos (by simp)]
          rfl
        · simp at hlen ⊢
          omega
    refine ⟨hmain, ?_⟩
    rw [hmain]
    rcases c with _ | ⟨hd, tl⟩
    · simp at hlen
    · simp at hlen ⊢
      omega
  · intro c k v hle
    have h1 : (mapSet k v c).length ≤ 101 := by
      unfold mapSet
      split <;> simp <;> omega
    exact cacheLimit_length_le h1

/-- C7 (witness): storing a fresh fingerprint into a concrete full cache of
100 entries drops the oldest entry and leaves exactly 100 entries. -/
theorem completionCache_bound_witness :
    cacheStore ("x").data ("v").data (List.replicate 100 (("a").data, ("b").data)) =
      (List.replicate 100 (("a").data, ("b").data)).tail ++ [(("x").data, ("v").data)] ∧
    (cacheStore ("x").data ("v").data
        (List.replicate 100 (("a").data, ("b").data))).length = 100 :=
  have h := completionCache_bound.1 (List.replicate 100 (("a").data, ("b").data))
      ("x").data ("v").data (by decide) (by decide)
  ⟨h.1, h.2⟩

/-! ## Claim C8: cache idempotence -/

/-- `find?` skips a prefix with no match. -/
lemma find?_append_of_none {p : JStr × JStr → Bool} {l1 l2 : CompletionCache}
    (h : l1.find? p = none) : (l1 ++ l2).find? p = l2.find? p := by
  rw [List.find?_append, h, Option.none_or]

/-- Storing a fresh fingerprint makes it retrievable: the eviction can only
remove the oldest pre-existing entry, never the entry just inserted. -/
lemma cacheGet_store_self {k v : JStr} {c : CompletionCache}
    (h : cacheGet k c = none) : cacheGet k (cacheStore k v c) = some v := by
  have hfind : c.find? (fun p => decide (p.1 = k)) = none := by
    unfold cacheGet at h
    cases hf : c.find? (fun p => decide (p.1 = k)) with
    | none => rfl
    | some p => rw [hf] at h; simp at h
  have hfresh : c.any (fun p => decide (p.1 = k)) = false := by
    have h1 := List.find?_eq_none.mp hfind
    rcases ha : c.any (fun p => decide (p.1 = k)) with _ | _
    · rfl
    · obtain ⟨x, hx, hpx⟩ := List.any_eq_true.mp ha
      exact absurd hpx (h1 x hx)
  have hmap : mapSet k v c = c ++ [(k, v)] := by
    unfold mapSet
    simp [hfresh]
  unfold cacheStore
  rw [hmap]
  unfold cacheLimit
  split
  · next hgt =>
    rcases c with _ | ⟨hd, tl⟩
    · simp at hgt
    · simp only [List.cons_append, List.head?_cons]
      rw [List.eraseP_cons_of_pos (by simp)]
      unfold cacheGet
      rw [find?_append_of_none]
      · simp
      · rw [List.find?_eq_none] at hfind ⊢
        intro x hx
        exact hfind x (List.mem_cons_of_mem hd hx)
  · unfold cacheGet
    rw [find?_append_of_none hfind]
    simp

/-- C8 (counterexample): two requests with an identical fingerprint issue two
generation calls, not one, when the model returns an empty string — an empty
result is never cached, so the second request misses the cache and generates
again. -/
theorem cacheIdempotence_fails_on_empty_generation :
    (generateCompletion (fun _ => some []) false
        ⟨("typescript").data, ("const x = ").data, [], ("const x = ").data, []⟩ []).genCalls +
    (generateCompletion (fun _ => some []) false
        ⟨("typescript").data, ("const x = ").data, [], ("const x = ").data, []⟩
        (generateCompletion (fun _ => some []) false
          ⟨("typescript").data, ("const x = ").data, [], ("const x = ").data, []⟩ []).cache).genCalls
      = 2 := by decide

/-- C8 (amended): when the first of two identically fingerprinted requests
misses the cache, is eligible (not mid-word, not blank-line), is not
cancelled, and its generation call returns a result with non-whitespace
content, then exactly one generation call is issued in total: the first
request caches the cleaned result and the second request issues no
generation call and returns the cached value unchanged. -/
theorem cacheIdempotence_nonempty (gen : JStr → Option JStr) (inp : CompletionInput)
    (cache : CompletionCache) (r : JStr)
    (hmw : (endsWithWord inp.linePrefix && startsWithWord inp.lineSuffix) = false)
    (hmiss : cacheGet (cacheKeyOf inp) cache = none)
    (hblank : ((jsTrim inp.linePrefix).isEmpty && (jsTrim inp.lineSuffix).isEmpty) = false)
    (hgen : gen (buildCompletionPrompt inp.languageId inp.contextBefore inp.contextAfter
        inp.linePrefix inp.lineSuffix) = some r)
    (hr : jsTrim r ≠ []) :
    (generateCompletion gen false inp cache).genCalls = 1 ∧
    (generateCompletion gen false inp cache).result = some (cleanCompletion r inp.linePrefix) ∧
    (generateCompletion gen false inp (generateCompletion gen false inp cache).cache).genCalls = 0 ∧
    (generateCompletion gen false inp (generateCompletion gen false inp cache).cache).result =
      (generateCompletion gen false inp cache).result := by
  have hrne : r ≠ [] := by
    intro h
    rw [h] at hr
    exact hr (by decide)
  have ho1 : generateCompletion gen false inp cache =
      ⟨some (cleanCompletion r inp.linePrefix),
        cacheStore (cacheKeyOf inp) (cleanCompletion r inp.linePrefix) cache, 1⟩ := by
    unfold generateCompletion
    simp [hmw, hmiss, hblank, hgen, hrne, hr]
  have hhit : cacheGet (cacheKeyOf inp)
      (cacheStore (cacheKeyOf inp) (cleanCompletion r inp.linePrefix) cache) =
      some (cleanCompletion r inp.linePrefix) := cacheGet_store_self hmiss
  have ho2 : generateCompletion gen false inp
      (cacheStore (cacheKeyOf inp) (cleanCompletion r inp.linePrefix) cache) =
      ⟨some (cleanCompletion r inp.linePrefix),
        cacheStore (cacheKeyOf inp) (cleanCompletion r inp.linePrefix) cache, 0⟩ := by
    unfold generateCompletion
    simp [hmw, hhit]
  rw [ho1]
  dsimp only
  rw [ho2]
  exact ⟨rfl, rfl, rfl, rfl⟩

/-- C8 (witness): a concrete eligible request pair with a non-whitespace
generation result issues one call then zero calls. -/
theorem cacheIdempotence_nonempty_witness :
    (generateCompletion (fun _ => some ("5;").data) false
        ⟨("typescript").data, ("const x = ").data, [], ("const x = ").data, []⟩ []).genCalls = 1 ∧
    (generateCompletion (fun _ => some ("5;").data) false
        ⟨("typescript").data, ("const x = ").data, [], ("const x = ").data, []⟩
        (generateCompletion (fun _ => some ("5;").data) false
          ⟨("typescript").data, ("const x = ").data, [], ("const x = ").data, []⟩ []).cache).genCalls
      = 0 :=
  have h := cacheIdempotence_nonempty (fun _ => some ("5;").data)
      ⟨("typescript").data, ("const x = ").data, [], ("const x = ").data, []⟩ [] ("5;").data
      (by decide) (by decide) (by decide) (by decide) (by decide)
  ⟨h.1, h.2.2.1⟩

/-! ## Claim C5: missing-credential fail-fast -/

/-- A configuration selecting groq with no key configured anywhere. -/
def cfgGroqNoKey : ServiceConfig := ⟨"groq", none, none, none, none, none⟩

/-- The same configuration but with a groq key configured. -/
def cfgGroqWithKey : ServiceConfig := ⟨"groq", some "k", none, none, none, none⟩

/-- The client state after the groq key was configured (client built) and
then removed (configuration-change rebuild, which never clears a client). -/
def staleState : ClientState :=
  rebuildClients cfgGroqNoKey (rebuildClients cfgGroqWithKey initialClientState)

/-- C5 (counterexample): with the groq provider selected and no API key
configured, a generation call still issues a network request instead of
failing with a missing-credential error, because the client handle built
while a key was configured survives the key's removal. -/
theorem staleClient_issues_network :
    cfgGroqNoKey.groqApiKey = none ∧
    generateResponse cfgGroqNoKey staleState = .network :=
  ⟨rfl, rfl⟩

/-- C5 (amended): perplexity, togetherai and replicate read the key from
configuration on every call and always fail with a missing-credential error
before any network request when it is absent; groq and huggingface fail fast
exactly when no client handle has been built, which holds whenever no key has
been configured since construction (client rebuilds never produce a handle
from an absent key), but not after a configured key is later removed. -/
theorem missingCredential_failfast :
    (∀ (cfg : ServiceConfig) (s : ClientState), cfg.provider = "perplexity" →
      cfg.perplexityApiKey = none →
      generateResponse cfg s = .error "Perplexity API key not configured") ∧
    (∀ (cfg : ServiceConfig) (s : ClientState), cfg.provider = "togetherai" →
      cfg.togetheraiApiKey = none →
      generateResponse cfg s = .error "Together AI API key not configured") ∧
    (∀ (cfg : ServiceConfig) (s : ClientState), cfg.provider = "replicate" →
      cfg.replicateApiKey = none →
      generateResponse cfg s = .error "Replicate API key not configured") ∧
    (∀ (cfg : ServiceConfig) (s : ClientState), cfg.provider = "groq" →
      s.groqClient = none →
      generateResponse cfg s = .error "Groq API key not configured") ∧
    (∀ (cfg : ServiceConfig) (s : ClientState), cfg.provider = "huggingface" →
      s.hfClient = none →
      generateResponse cfg s = .error "HuggingFace API key not configured") ∧
    (∀ cfg : ServiceConfig, cfg.groqApiKey = none → cfg.hfApiKey = none →
      rebuildClients cfg initialClientState = initialClientState) := by
  refine ⟨?_, ?_, ?_, ?_, ?_, ?_⟩
  · intro cfg s hp hk
    simp [generateResponse, hp, generatePerplexityResponse, hk]
  · intro cfg s hp hk
    simp [generateResponse, hp, generateTogetherAIResponse, hk]
  · intro cfg s hp hk
    simp [generateResponse, hp, generateReplicateCredential, hk]
  · intro cfg s hp hk
    simp [generateResponse, hp, generateGroqResponse, hk]
  · intro cfg s hp hk
    simp [generateResponse, hp, generateHuggingFaceResponse, hk]
  · intro cfg h1 h2
    simp [rebuildClients, h1, h2]

/-- C5 (witness): each key-based provider fails fast on a fresh service with
no keys configured. -/
theorem missingCredential_failfast_witness :
    generateResponse ⟨"perplexity", none, none, none, none, none⟩ initialClientState =
      .error "Perplexity API key not configured" ∧
    generateResponse ⟨"togetherai", none, none, none, none, none⟩ initialClientState =
      .error "Together AI API key not configured" ∧
    generateResponse ⟨"replicate", none, none, none, none, none⟩ initialClientState =
      .error "Replicate API key not configured" ∧
    generateResponse ⟨"groq", none, none, none, none, none⟩ initialClientState =
      .error "Groq API key not configured" ∧
    generateResponse ⟨"huggingface", none, none, none, none, none⟩ initialClientState =
      .error "HuggingFace API key not configured" :=
  ⟨missingCredential_failfast.1 _ _ rfl rfl,
   missingCredential_failfast.2.1 _ _ rfl rfl,
   missingCredential_failfast.2.2.1 _ _ rfl rfl,
   missingCredential_failfast.2.2.2.1 _ _ rfl rfl,
   missingCredential_failfast.2.2.2.2.1 _ _ rfl rfl⟩

/-! ## Claims C6 and C10: Replicate polling loop -/

/-- One polling iteration on a falsy result and a non-terminal status just
increments the attempt counter. -/
lemma pollAux_step_nonterminal (backend : Nat → PollResponse) (fuel attempts : Nat)
    (h1 : (backend attempts).status ≠ "succeeded")
    (h2 : (backend attempts).status ≠ "failed") :
    replicatePollAux backend (fuel + 1) none attempts =
      replicatePollAux backend fuel none (attempts + 1) := by
  simp [replicatePollAux, jsTruthyStr, h1, h2]

/-- One polling iteration on a falsy result and a `succeeded` status stores
the joined output and increments the attempt counter. -/
lemma pollAux_step_succeeded (backend : Nat → PollResponse) (fuel attempts : Nat)
    (r : Option String) (hr : jsTruthyStr r = false)
    (h : (backend attempts).status = "succeeded") :
    replicatePollAux backend (fuel + 1) r attempts =
      replicatePollAux backend fuel (some (jsJoinOr (backend attempts).output)) (attempts + 1) := by
  simp [replicatePollAux, hr, h]

/-- A truthy (nonempty) result stops the loop immediately. -/
lemma pollAux_truthy (backend : Nat → PollResponse) (fuel attempts : Nat)
    (s : String) (h : s ≠ "") :
    replicatePollAux backend fuel (some s) attempts = .ok (some s, attempts) := by
  cases fuel <;> simp [replicatePollAux, jsTruthyStr, h]

/-- With a backend that never reports a terminal status, the loop consumes
all its fuel, one status check per unit. -/
lemma pollAux_all_nonterminal (backend : Nat → PollResponse)
    (h : ∀ i, (backend i).status ≠ "succeeded" ∧ (backend i).status ≠ "failed") :
    ∀ fuel attempts,
      replicatePollAux backend fuel none attempts = .ok (none, attempts + fuel) := by
  intro fuel
  induction fuel with
  | zero => intro a; simp [replicatePollAux]
  | succ f ih =>
    intro a
    rw [pollAux_step_nonterminal backend f a (h a).1 (h a).2, ih (a + 1)]
    have he : a + 1 + f = a + (f + 1) := by omega
    rw [he]

/-- A first `failed` status within the fuel budget aborts the loop with the
thrown error. -/
lemma pollAux_failed (backend : Nat → PollResponse) :
    ∀ n fuel attempts, n < fuel →
      (∀ j, j < n → (backend (attempts + j)).status ≠ "succeeded" ∧
        (backend (attempts + j)).status ≠ "failed") →
      (backend (attempts + n)).status = "failed" →
      replicatePollAux backend fuel none attempts = .error "Replicate prediction failed" := by
  intro n
  induction n with
  | zero =>
    intro fuel attempts hf hnt hfail
    rcases fuel with _ | f
    · omega
    · simp only [Nat.add_zero] at hfail
      simp [replicatePollAux, jsTruthyStr, hfail]
  | succ m ih =>
    intro fuel attempts hf hnt hfail
    rcases fuel with _ | f
    · omega
    · have h0 := hnt 0 (by omega)
      simp only [Nat.add_zero] at h0
      rw [pollAux_step_nonterminal backend f attempts h0.1 h0.2]
      refine ih f (attempts + 1) (by omega) ?_ ?_
      · intro j hj
        have h2 := hnt (j + 1) (by omega)
        have he : attempts + (j + 1) = attempts + 1 + j := by omega
        rw [he] at h2
        exact h2
      · have he : attempts + (m + 1) = attempts + 1 + m := by omega
        rw [he] at hfail
        exact hfail

/-- C6: the polling adapter (a) returns the joined fragments `ab` after
exactly 3 status checks when the backend first reports a terminal status
`succeeded` with fragments `a`, `b` on the 3rd check, (b) performs exactly 30
status checks and returns the empty string when the backend never reports a
terminal status, and (c) fails with the provider-execution error when the
first terminal status reported (within the attempt cap) is `failed`. -/
theorem replicatePolling_behaviour :
    (∀ backend : Nat → PollResponse,
      (backend 0).status ≠ "succeeded" → (backend 0).status ≠ "failed" →
      (backend 1).status ≠ "succeeded" → (backend 1).status ≠ "failed" →
      backend 2 = ⟨"succeeded", some ["a", "b"]⟩ →
      generateReplicateResult backend = .ok ("ab", 3)) ∧
    (∀ backend : Nat → PollResponse,
      (∀ i, (backend i).status ≠ "succeeded" ∧ (backend i).status ≠ "failed") →
      generateReplicateResult backend = .ok ("", 30)) ∧
    (∀ (backend : Nat → PollResponse) (n : Nat), n < 30 →
      (∀ j, j < n → (backend j).status ≠ "succeeded" ∧ (backend j).status ≠ "failed") →
      (backend n).status = "failed" →
      generateReplicateResult backend = .error "Replicate prediction failed") := by
  refine ⟨?_, ?_, ?_⟩
  · intro backend h0s h0f h1s h1f h2
    unfold generateReplicateResult
    rw [show (30 : Nat) = 29 + 1 from rfl,
      pollAux_step_nonterminal backend 29 0 h0s h0f,
      show (29 : Nat) = 28 + 1 from rfl,
      pollAux_step_nonterminal backend 28 1 h1s h1f,
      show (28 : Nat) = 27 + 1 from rfl,
      pollAux_step_succeeded backend 27 2 none rfl (by rw [h2]), h2,
      pollAux_truthy backend 27 3 (jsJoinOr (some ["a", "b"])) (by decide)]
    rfl
  · intro backend h
    unfold generateReplicateResult
    rw [pollAux_all_nonterminal backend h 30 0]
  · intro backend n hn hnt hfail
    unfold generateReplicateResult
    rw [pollAux_failed backend n 30 0 hn
      (by intro j hj; simpa using hnt j hj) (by simpa using hfail)]

/-- A backend that reports `succeeded` with fragments `a`, `b` on the 3rd
status check and a non-terminal status before that. -/
def pollBackendSucceeds3 : Nat → PollResponse :=
  fun n => if n < 2 then ⟨"processing", none⟩ else ⟨"succeeded", some ["a", "b"]⟩

/-- A backend that never reaches a terminal status. -/
def pollBackendNeverDone : Nat → PollResponse := fun _ => ⟨"processing", none⟩

/-- A backend that reports `failed` on the first status check. -/
def pollBackendFails : Nat → PollResponse := fun _ => ⟨"failed", none⟩

/-- C6 (witness): the three simulated backends of the claim produce the
stated outcomes. -/
theorem replicatePolling_behaviour_witness :
    generateReplicateResult pollBackendSucceeds3 = .ok ("ab", 3) ∧
    generateReplicateResult pollBackendNeverDone = .ok ("", 30) ∧
    generateReplicateResult pollBackendFails = .error "Replicate prediction failed" :=
  ⟨replicatePolling_behaviour.1 pollBackendSucceeds3
      (by decide) (by decide) (by decide) (by decide) (by decide),
   replicatePolling_behaviour.2.1 pollBackendNeverDone
      (fun i => ⟨by simp [pollBackendNeverDone], by simp [pollBackendNeverDone]⟩),
   replicatePolling_behaviour.2.2 pollBackendFails 0 (by decide)
      (fun j hj => absurd hj (Nat.not_lt_zero j)) (by decide)⟩

/-- C10: when every status check reports `succeeded` with an empty or absent
fragment array, the joined result is the empty string, which is falsy, so
the loop does not stop: all 30 status checks are performed and the empty
string is returned. -/
theorem replicateEmptySuccess_keeps_polling (backend : Nat → PollResponse)
    (h : ∀ i, (backend i).status = "succeeded" ∧
      ((backend i).output = none ∨ (backend i).output = some [])) :
    generateReplicateResult backend = .ok ("", 30) := by
  have hj : ∀ i, jsJoinOr (backend i).output = "" := by
    intro i
    rcases (h i).2 with h2 | h2 <;> rw [h2] <;> rfl
  have key : ∀ fuel attempts,
      replicatePollAux backend fuel (some "") attempts = .ok (some "", attempts + fuel) := by
    intro fuel
    induction fuel with
    | zero => intro a; simp [replicatePollAux]
    | succ f ih =>
      intro a
      rw [pollAux_step_succeeded backend f a (some "") (by decide) (h a).1, hj a, ih (a + 1)]
      have he : a + 1 + f = a + (f + 1) := by omega
      rw [he]
  unfold generateReplicateResult
  rw [show (30 : Nat) = 29 + 1 from rfl,
    pollAux_step_succeeded backend 29 0 none rfl (h 0).1, hj 0, key 29 1]

/-- A backend stuck on `succeeded` with an empty fragment array. -/
def pollBackendEmptySucceeded : Nat → PollResponse := fun _ => ⟨"succeeded", some []⟩

/-- C10 (witness): the concrete empty-success backend is polled 30 times and
yields the empty string. -/
theorem replicateEmptySuccess_keeps_polling_witness :
    generateReplicateResult pollBackendEmptySucceeded = .ok ("", 30) :=
  replicateEmptySuccess_keeps_polling pollBackendEmptySucceeded
    (fun _ => ⟨rfl, Or.inr rfl⟩)

/-! ## Claim C9: debounce supersedes earlier triggers -/

/-- Running events in two batches is running them in sequence. -/
lemma debRun_append (s : DebState) (l1 l2 : List DebEvent) :
    debRun s (l1 ++ l2) = debRun (debRun s l1) l2 := by
  simp [debRun, List.foldl_append]

/-- A burst of triggers with no timer expiry between them leaves the last
trigger owning the timer and runs nothing. -/
lemma debRun_trigger_append (s : DebState) (ids : List Nat) (i : Nat) :
    debRun s ((ids ++ [i]).map DebEvent.trigger) = ⟨some i, s.fired⟩ := by
  induction ids generalizing s with
  | nil => rfl
  | cons a t ih =>
    simp only [List.cons_append, List.map_cons, debRun, List.foldl_cons]
    exact ih ⟨some a, s.fired⟩

/-- C9: in one editor session, for any burst of triggers each arriving within
the debounce window of the previous one (so no timer expiry occurs between
them), no trigger's work runs during the burst, and when the single live
timer finally fires only the most recent trigger's work runs — every earlier
trigger is superseded without its generation call ever being issued. -/
theorem debounce_only_last_fires (ids : List Nat) (i : Nat) :
    (debRun debInit ((ids ++ [i]).map DebEvent.trigger)).fired = [] ∧
    (debRun debInit ((ids ++ [i]).map DebEvent.trigger ++ [DebEvent.fire])).fired = [i] := by
  constructor
  · rw [debRun_trigger_append]
    rfl
  · rw [debRun_append, debRun_trigger_append]
    rfl
